import Mathlib

/-!
Shallow embedding of the IonTracks validation engine
(`validation/data_utils.py`, `validation/comparison.py`).

A pandas `DataFrame` is modelled as a header list, a per-column numeric-dtype
flag list, and a list of rows of cells; a cell is `Option ℚ`, `none` standing
for NaN.  Fallible code returns `Except String`.  The two simulation
collaborators (`ks_initial_IonTracks`, `IonTracks_continuous_beam`) are
external and are passed in as oracles returning `Option` of a single result
row, `none` standing for a raised exception.
-/

namespace IonTracks

/-- Model of a pandas DataFrame: column names, per-column numeric-dtype flags
(aligned with `names`), and rows of cells aligned positionally with `names`;
a `none` cell is NaN. -/
structure DataFrame where
  names : List String
  numeric : List Bool
  rows : List (List (Option ℚ))

/-- `col in df.columns`. -/
def DataFrame.hasCol (df : DataFrame) (n : String) : Bool :=
  decide (n ∈ df.names)

/-- Positional index of a column name in the header. -/
def DataFrame.colIdx (df : DataFrame) (n : String) : Option Nat :=
  df.names.findIdx? (fun m => m == n)

/-- `df[n]`: the cells of column `n` (empty when the column is absent). -/
def colValues (df : DataFrame) (n : String) : List (Option ℚ) :=
  match df.colIdx n with
  | some i => df.rows.map (fun r => (r[i]?).getD none)
  | none => []

/-- `pd.api.types.is_numeric_dtype(df[n])`. -/
def colNumeric (df : DataFrame) (n : String) : Bool :=
  match df.colIdx n with
  | some i => df.numeric.getD i false
  | none => false

/-- `df[n].isna().sum()`. -/
def nanCount (df : DataFrame) (n : String) : Nat :=
  (colValues df n).countP (fun o => o.isNone)

/-- One cell of `(df[col] <= 0)`: NaN compares `False` in pandas. -/
def isNonPosCell (o : Option ℚ) : Bool :=
  match o with
  | some v => decide (v ≤ 0)
  | none => false

/-- One cell of `(df[col] < 0)`: NaN compares `False` in pandas. -/
def isNegCell (o : Option ℚ) : Bool :=
  match o with
  | some v => decide (v < 0)
  | none => false

/-- `(df[n] <= 0).any()`. -/
def anyNonPos (df : DataFrame) (n : String) : Bool :=
  (colValues df n).any isNonPosCell

/-- `(df[n] < 0).any()`. -/
def anyNeg (df : DataFrame) (n : String) : Bool :=
  (colValues df n).any isNegCell

/-- `REQUIRED_COLUMNS["energy"]`. -/
def energyAliases : List String := ["Energy_MeV", "energy_MeV", "E_MeV", "energy"]

/-- `REQUIRED_COLUMNS["ks"]`. -/
def ksAliases : List String := ["k_s", "ks", "recombination_factor", "collection_efficiency"]

/-- `REQUIRED_COLUMNS["dose_rate_air"]`. -/
def doseRateAirAliases : List String :=
  ["dose_rate_air_Gy_s", "dose_rate_air", "doserate_air_Gy_s"]

/-- `REQUIRED_COLUMNS["dose_rate_water"]`. -/
def doseRateWaterAliases : List String :=
  ["dose_rate_water_Gy_s", "dose_rate_water", "doserate_water_Gy_s"]

/-- `find_column(df, possible_names)`: first name in the list that is a
column of `df`, else `None`. -/
def findColumn (df : DataFrame) : List String → Option String
  | [] => none
  | n :: rest => if df.hasCol n then some n else findColumn df rest

/-- Rendering of a list of column names inside an error message. -/
def aliasListMsg (l : List String) : String :=
  String.intercalate ", " l

/-- Message for missing required columns. -/
def missingColumnsMsg (missing : List String) : String :=
  "Missing required columns: " ++ aliasListMsg missing

/-- Message for NaN cells in a required column. -/
def nanValuesMsg (c : String) (n : Nat) : String :=
  "Column " ++ c ++ " contains " ++ toString n ++ " NaN values"

/-- Message for a non-numeric dtype. -/
def mustBeNumericMsg (c : String) : String :=
  "Column " ++ c ++ " must be numeric"

/-- Message for non-positive values. -/
def nonPositiveMsg (c : String) : String :=
  "Column " ++ c ++ " contains non-positive values"

/-- Message for negative values. -/
def negativeMsg (c : String) : String :=
  "Column " ++ c ++ " contains negative values"

/-- The NaN-checking loop of `validate_experimental_data`. -/
def nanErrorsFor (df : DataFrame) (cols : List String) : List String :=
  cols.filterMap (fun c =>
    if 0 < nanCount df c then some (nanValuesMsg c (nanCount df c)) else none)

/-- Dtype-then-range check for a column whose values must be positive. -/
def nonPosErrors (df : DataFrame) (c : String) : List String :=
  if colNumeric df c then
    (if anyNonPos df c then [nonPositiveMsg c] else [])
  else [mustBeNumericMsg c]

/-- Dtype-then-range check for a column whose values must be non-negative. -/
def negErrors (df : DataFrame) (c : String) : List String :=
  if colNumeric df c then
    (if anyNeg df c then [negativeMsg c] else [])
  else [mustBeNumericMsg c]

/-- `validate_experimental_data(df, energy_column, ks_column, dose_rate_column)`:
returns the `(is_valid, errors)` pair. -/
def validateExperimentalData (df : DataFrame)
    (energy_column ks_column dose_rate_column : String) : Bool × List String :=
  let required := [energy_column, ks_column, dose_rate_column]
  let missing := required.filter (fun c => !(df.hasCol c))
  if missing.isEmpty then
    if df.rows.length = 0 then (false, ["DataFrame is empty"])
    else
      let errors := nanErrorsFor df required
        ++ nonPosErrors df energy_column
        ++ nonPosErrors df ks_column
        ++ negErrors df dose_rate_column
      (errors.isEmpty, errors)
  else (false, [missingColumnsMsg missing])

/-- Energy-column resolution step of `load_experimental_data`: an explicit
name is used verbatim, otherwise the alias table is tried. -/
def resolveEnergyColumn (df : DataFrame) (override : Option String) :
    Except String String :=
  match override with
  | some c => .ok c
  | none =>
    match findColumn df energyAliases with
    | some c => .ok c
    | none => .error ("Could not find energy column. Tried: " ++ aliasListMsg energyAliases)

/-- k_s-column resolution step of `load_experimental_data`. -/
def resolveKsColumn (df : DataFrame) (override : Option String) :
    Except String String :=
  match override with
  | some c => .ok c
  | none =>
    match findColumn df ksAliases with
    | some c => .ok c
    | none => .error ("Could not find k_s column. Tried: " ++ aliasListMsg ksAliases)

/-- Dose-rate-column resolution step of `load_experimental_data`: air aliases
first, then water aliases, then an error naming every attempted alias. -/
def resolveDoseRateColumn (df : DataFrame) (override : Option String) :
    Except String String :=
  match override with
  | some c => .ok c
  | none =>
    match findColumn df doseRateAirAliases with
    | some c => .ok c
    | none =>
      match findColumn df doseRateWaterAliases with
      | some c => .ok c
      | none => .error ("Could not find dose rate column. Tried: "
          ++ aliasListMsg (doseRateAirAliases ++ doseRateWaterAliases))

/-- `df.rename(columns={e: "Energy_MeV", k: "k_s", d: "dose_rate_Gy_s"})`. -/
def renameColumns (df : DataFrame) (e k d : String) : DataFrame :=
  { df with
    names := df.names.map (fun n =>
      if n = e then "Energy_MeV"
      else if n = k then "k_s"
      else if n = d then "dose_rate_Gy_s"
      else n) }

/-- `df["dose_rate_Gy_min"] = df["dose_rate_Gy_s"] * 60` when the per-minute
column is missing. -/
def addDoseRateMin (df : DataFrame) : DataFrame :=
  if df.hasCol "dose_rate_Gy_min" then df
  else
    match df.colIdx "dose_rate_Gy_s" with
    | some i =>
      { names := df.names ++ ["dose_rate_Gy_min"],
        numeric := df.numeric ++ [colNumeric df "dose_rate_Gy_s"],
        rows := df.rows.map (fun r => r ++ [((r[i]?).getD none).map (fun v => v * 60)]) }
    | none => df

/-- `load_experimental_data` after the CSV has been read into `df`:
column resolution (explicit overrides win), validation, renaming onto the
canonical schema, and addition of the derived per-minute dose-rate column. -/
def loadExperimentalData (df : DataFrame)
    (energy_column ks_column dose_rate_column : Option String) :
    Except String DataFrame := do
  let e ← resolveEnergyColumn df energy_column
  let k ← resolveKsColumn df ks_column
  let d ← resolveDoseRateColumn df dose_rate_column
  let v := validateExperimentalData df e k d
  if v.1 then
    .ok (addDoseRateMin (renameColumns df e k d))
  else
    .error ("Data validation failed: " ++ String.intercalate "; " v.2)

/-- One row of the canonical (post-load) experimental dataset, restricted to
the fields the comparators read. -/
structure ExpRow where
  energy : ℚ
  ks : ℚ
  doseRate : ℚ
  doseRateMin : ℚ
deriving DecidableEq

/-- The single result row of `ks_initial_IonTracks` (external collaborator). -/
structure InitSimRow where
  E_MeV_u : ℚ
  ks : ℚ
deriving DecidableEq

/-- One record of the initial-recombination comparison table. -/
structure InitRecord where
  Energy_MeV : ℚ
  k_s_experimental : ℚ
  k_s_IonTracks : ℚ
  difference : ℚ
  relative_error_pct : ℚ
deriving DecidableEq

/-- `series.min()` on a pandas series (callers only use it on non-empty ones). -/
def listMin : List ℚ → ℚ
  | [] => 0
  | x :: xs => xs.foldl min x

/-- `sorted(self.exp_data["Energy_MeV"].unique())`. -/
def initialEnergies (rows : List ExpRow) : List ℚ :=
  List.insertionSort (· ≤ ·) (rows.map (fun r => r.energy)).dedup

/-- The comparison loop of `run_initial_recombination`: for each energy, the
experimental reference is `exp_subset["k_s"].min()` and the simulated value is
the first `initial_results` row whose `E_MeV_u` equals the energy. -/
def initialComparisonRecords (rows : List ExpRow) (results : List InitSimRow)
    (energies : List ℚ) : List InitRecord :=
  energies.filterMap (fun e =>
    let subset := rows.filter (fun r => decide (r.energy = e))
    let ksExpMin := listMin (subset.map (fun r => r.ks))
    match results.filter (fun r => decide (r.E_MeV_u = e)) with
    | [] => none
    | r :: _ =>
      some { Energy_MeV := e, k_s_experimental := ksExpMin, k_s_IonTracks := r.ks,
             difference := r.ks - ksExpMin,
             relative_error_pct := 100 * (r.ks - ksExpMin) / ksExpMin })

/-- Core of `run_initial_recombination`: the per-energy simulation loop
(`none` = the call raised and the energy is skipped), the zero-success fatal
error, and the comparison table. -/
def runInitialCore (simI : ℚ → Option InitSimRow) (rows : List ExpRow) :
    Except String (List InitSimRow × List InitRecord) :=
  let energies := initialEnergies rows
  let resultsList := energies.filterMap simI
  if resultsList.isEmpty then
    .error "Failed to calculate any results for Initial Recombination"
  else
    .ok (resultsList, initialComparisonRecords rows resultsList energies)

/-- The single result row of `IonTracks_continuous_beam` (external). -/
structure ContSimRow where
  ks_IonTracks : ℚ
  E_MeV_u : ℚ
deriving DecidableEq

/-- One row of `continuous_df`; `ks_IonTracks = none` is the NaN placeholder
appended for a failed row. -/
structure ContEntry where
  ks_IonTracks : Option ℚ
  E_MeV_u : ℚ
deriving DecidableEq

/-- The arguments of one `IonTracks_continuous_beam` invocation that the
seeding contract is about. -/
structure ContCall where
  myseed : ℤ
  E_MeV_u : ℚ
  doserate_Gy_min : ℚ
deriving DecidableEq

/-- Seed determination in `run_continuous_beam`: the configured seed when
present, otherwise the value drawn by `random.randint(1, int(1e7))`
(passed in as `draw`). -/
def baseSeed (cfgSeed : Option ℤ) (draw : ℤ) : ℤ :=
  match cfgSeed with
  | none => draw
  | some s => s

/-- The per-row loop of `run_continuous_beam`: row `idx` is simulated with
seed `seed + idx`; a raised call (`none`) is replaced by the NaN placeholder
carrying the row energy.  Each iteration is recorded as the invocation made
together with the `continuous_df` row it appended.  `contStep` is the body
of one iteration. -/
def contStep (simC : ℤ → ℚ → ℚ → Option ContSimRow) (seed : ℤ) (idx : Nat)
    (r : ExpRow) : ContCall × ContEntry :=
  (⟨seed + (idx : ℤ), r.energy, r.doseRateMin⟩,
   match simC (seed + (idx : ℤ)) r.energy r.doseRateMin with
   | some res => ⟨some res.ks_IonTracks, res.E_MeV_u⟩
   | none => ⟨none, r.energy⟩)

def contLoop (simC : ℤ → ℚ → ℚ → Option ContSimRow) (seed : ℤ) :
    List ExpRow → Nat → List (ContCall × ContEntry)
  | [], _ => []
  | r :: rs, idx => contStep simC seed idx r :: contLoop simC seed rs (idx + 1)

/-- One row of the continuous comparison table: a copy of the experimental
row plus the derived columns, all NaN-propagating (`none` = NaN). -/
structure ContRecord where
  row : ExpRow
  ks_IonTracks : Option ℚ
  difference : Option ℚ
  relative_error_pct : Option ℚ
  absolute_error : Option ℚ
deriving DecidableEq

/-- `comparison_continuous = self.exp_data.copy()` followed by the positional
column assignments of `k_s_IonTracks`, `difference`, `relative_error_%` and
`absolute_error` (pre-`dropna`); `mkContRecord` is the record built for one
experimental row. -/
def mkContRecord (r : ExpRow) (e : ContEntry) : ContRecord :=
  { row := r, ks_IonTracks := e.ks_IonTracks,
    difference := e.ks_IonTracks.map (fun v => v - r.ks),
    relative_error_pct := e.ks_IonTracks.map (fun v => 100 * (v - r.ks) / r.ks),
    absolute_error := e.ks_IonTracks.map (fun v => |v - r.ks|) }

/-- The positional zip of the experimental rows with the `continuous_df`
rows (`comparison_continuous["k_s_IonTracks"] = continuous_df[...].values`). -/
def buildContComparison (rows : List ExpRow) (entries : List ContEntry) :
    List ContRecord :=
  List.zipWith mkContRecord rows entries

/-- The sequence of stochastic-simulation invocations made by
`run_continuous_beam`. -/
def contCalls (simC : ℤ → ℚ → ℚ → Option ContSimRow) (cfgSeed : Option ℤ)
    (draw : ℤ) (rows : List ExpRow) : List ContCall :=
  (contLoop simC (baseSeed cfgSeed draw) rows 0).map (fun p => p.1)

/-- Core of `run_continuous_beam`: the loop, the emptiness check on
`continuous_results_list`, the pre-clean comparison table and the clean
(`dropna(subset=["k_s_IonTracks"])`) table. -/
def runContinuousCore (simC : ℤ → ℚ → ℚ → Option ContSimRow)
    (cfgSeed : Option ℤ) (draw : ℤ) (rows : List ExpRow) :
    Except String (List ContEntry × List ContRecord × List ContRecord) :=
  let seed := baseSeed cfgSeed draw
  let resultsList := (contLoop simC seed rows 0).map (fun p => p.2)
  if resultsList.isEmpty then
    .error "Failed to calculate any results for Continuous Beam"
  else
    let preClean := buildContComparison rows resultsList
    let clean := preClean.filter (fun c => c.ks_IonTracks.isSome)
    .ok (resultsList, preClean, clean)

/-- The four result slots of a `ComparisonRunner` (`None` = not yet run). -/
structure RunnerState where
  initial_results : Option (List InitSimRow)
  continuous_results : Option (List ContEntry)
  comparison_initial : Option (List InitRecord)
  comparison_continuous : Option (List ContRecord)
deriving DecidableEq

/-- `ComparisonRunner.run_initial_recombination` as a state transformer:
on success it overwrites `initial_results` and `comparison_initial`. -/
def runInitialRecombination (simI : ℚ → Option InitSimRow) (rows : List ExpRow)
    (s : RunnerState) : Except String RunnerState :=
  match runInitialCore simI rows with
  | .error e => .error e
  | .ok (res, recs) =>
    .ok { s with initial_results := some res, comparison_initial := some recs }

/-- `ComparisonRunner.run_continuous_beam` as a state transformer: on success
it overwrites `continuous_results` and stores the clean table in
`comparison_continuous` (the source drops NaN rows before storing). -/
def runContinuousBeam (simC : ℤ → ℚ → ℚ → Option ContSimRow)
    (cfgSeed : Option ℤ) (draw : ℤ) (rows : List ExpRow) (s : RunnerState) :
    Except String RunnerState :=
  match runContinuousCore simC cfgSeed draw rows with
  | .error e => .error e
  | .ok (res, _preClean, clean) =>
    .ok { s with continuous_results := some res, comparison_continuous := some clean }

/-- `ComparisonRunner.save_results`: the list of files written; a phase whose
stored comparison is absent or empty is skipped.  (The clean CSV is a column
projection of the stored continuous table; only the set of files written is
modelled.) -/
def saveResults (s : RunnerState) : List String :=
  (match s.comparison_initial with
   | some t => if 0 < t.length then ["comparison_initial.csv"] else []
   | none => []) ++
  (match s.comparison_continuous with
   | some t =>
     if 0 < t.length then ["comparison_continuous.csv", "comparison_continuous_clean.csv"]
     else []
   | none => [])

/-- Spec-side selection rule, written from the spec sentence "selects, for
each energy group, the experimental row with the minimum dose rate as the
reference value": the first row attaining the minimum dose rate. -/
def rowAtMinDoseRate : List ExpRow → Option ExpRow
  | [] => none
  | r :: rs => some (rs.foldl (fun acc x => if x.doseRate < acc.doseRate then x else acc) r)

/-- Spec-side reference value: the `k_s` of the minimum-dose-rate row. -/
def ksAtMinDoseRate (rows : List ExpRow) : Option ℚ :=
  (rowAtMinDoseRate rows).map (fun r => r.ks)

/-- Concrete two-row dataset, one energy group; the minimum-dose-rate row
(rate 1/2) has `k_s = 19/20`, the group's minimum `k_s` is `4/5`. -/
def exRows : List ExpRow := [⟨10, 19/20, 1/2, 30⟩, ⟨10, 4/5, 2, 120⟩]

/-- Concrete point-estimate stub: `ks = 81/100` at 10 MeV. -/
def exSimI : ℚ → Option InitSimRow := fun e => if e = 10 then some ⟨10, 81/100⟩ else none

/-- The `initial_results` rows produced by `exSimI` on `exRows`. -/
def exResults : List InitSimRow := [⟨10, 81/100⟩]

/-- The one comparison record produced on `exRows` with `exSimI`. -/
def exInitRecord : InitRecord := ⟨10, 4/5, 81/100, 1/100, 5/4⟩

/-- Concrete three-row dataset for the continuous-beam scenarios. -/
def exContRows : List ExpRow := [⟨10, 9/10, 1, 60⟩, ⟨10, 4/5, 2, 120⟩, ⟨20, 17/20, 1, 60⟩]

/-- Concrete stochastic stub failing exactly at seed 101 (row index 1 under
base seed 100). -/
def exSimC : ℤ → ℚ → ℚ → Option ContSimRow :=
  fun sd e _ => if sd = 101 then none else some ⟨e / 100, e⟩

/-- The `continuous_df` rows produced by `exSimC` on `exContRows` with base
seed 100: a NaN placeholder at index 1. -/
def exEntries : List ContEntry := [⟨some (1/10), 10⟩, ⟨none, 10⟩, ⟨some (1/5), 20⟩]

/-- The pre-`dropna` comparison table for the concrete continuous scenario. -/
def exPreClean : List ContRecord := buildContComparison exContRows exEntries

/-- The clean comparison table for the concrete continuous scenario. -/
def exClean : List ContRecord := exPreClean.filter (fun c => c.ks_IonTracks.isSome)

/-- An empty dataset whose three (numeric) columns are all present. -/
def emptyTriDF : DataFrame := ⟨["E", "K", "D"], [true, true, true], []⟩

/-- A two-row dataset with a non-numeric energy column holding a NaN, and a
negative dose-rate value: two independent families of violations at once. -/
def mixedBadDF : DataFrame :=
  ⟨["E", "K", "D"], [false, true, true],
   [[some 1, some 1, some (-1)], [none, some 2, some 0]]⟩

/-- A concrete canonical-name dataset with integer-valued cells that passes
validation. -/
def exDF : DataFrame :=
  ⟨["Energy_MeV", "k_s", "dose_rate_Gy_s"], [true, true, true],
   [[some 10, some 95, some 1], [some 10, some 80, some 2]]⟩

/-- The rows of `exDF` as the comparators read them. -/
def posRows : List ExpRow := [⟨10, 95, 1, 60⟩, ⟨10, 80, 2, 120⟩]

/-- A dataset carrying only the water-group dose-rate alias. -/
def waterDF : DataFrame :=
  ⟨["Energy_MeV", "k_s", "dose_rate_water"], [true, true, true], [[some 1, some 1, some 1]]⟩

theorem foldl_min_mem (x : ℚ) (xs : List ℚ) : xs.foldl min x ∈ x :: xs := by
  induction xs generalizing x with
  | nil => simp
  | cons y ys ih =>
    rw [List.foldl_cons]
    rcases List.mem_cons.mp (ih (min x y)) with h | h
    · rw [h]; rcases min_choice x y with h' | h' <;> rw [h'] <;> simp
    · simp [h]

theorem listMin_mem {l : List ℚ} (h : l ≠ []) : listMin l ∈ l := by
  cases l with
  | nil => exact absurd rfl h
  | cons x xs => exact foldl_min_mem x xs

theorem contLoop_length (simC : ℤ → ℚ → ℚ → Option ContSimRow) (seed : ℤ)
    (rows : List ExpRow) : ∀ i, (contLoop simC seed rows i).length = rows.length := by
  induction rows with
  | nil => intro i; rfl
  | cons r rs ih => intro i; simp [contLoop, ih]

theorem contLoop_get (simC : ℤ → ℚ → ℚ → Option ContSimRow) (seed : ℤ)
    (rows : List ExpRow) : ∀ i j,
    (contLoop simC seed rows i)[j]? = (rows[j]?).map (fun r => contStep simC seed (i + j) r) := by
  induction rows with
  | nil => intro i j; simp [contLoop]
  | cons r rs ih =>
    intro i j
    cases j with
    | zero => simp [contLoop]
    | succ j' =>
      simp only [contLoop, List.getElem?_cons_succ, ih (i + 1) j']
      have hij : i + 1 + j' = i + (j' + 1) := by omega
      rw [hij]

theorem buildContComparison_get (rows : List ExpRow) (entries : List ContEntry) :
    ∀ i : Nat, (buildContComparison rows entries)[i]? =
      (rows[i]?).bind (fun r => (entries[i]?).map (fun e => mkContRecord r e)) := by
  induction rows generalizing entries with
  | nil => intro i; simp [buildContComparison]
  | cons r rs ih =>
    intro i
    cases entries with
    | nil => cases i <;> simp [buildContComparison]
    | cons e es =>
      cases i with
      | zero => simp [buildContComparison]
      | succ i' => simpa [buildContComparison] using ih es i'

theorem mem_buildContComparison {rows : List ExpRow} {entries : List ContEntry}
    {c : ContRecord} (hc : c ∈ buildContComparison rows entries) :
    ∃ r e, r ∈ rows ∧ e ∈ entries ∧ c = mkContRecord r e := by
  induction rows generalizing entries with
  | nil => simp [buildContComparison] at hc
  | cons r rs ih =>
    cases entries with
    | nil => simp [buildContComparison] at hc
    | cons e es =>
      rcases List.mem_cons.mp hc with h | h
      · exact ⟨r, e, List.mem_cons_self .., List.mem_cons_self .., h⟩
      · rcases ih h with ⟨r', e', hr', he', hc'⟩
        exact ⟨r', e', List.mem_cons_of_mem _ hr', List.mem_cons_of_mem _ he', hc'⟩

theorem mem_initialEnergies {rows : List ExpRow} {e : ℚ} :
    e ∈ initialEnergies rows ↔ ∃ r ∈ rows, r.energy = e := by
  unfold initialEnergies
  rw [(List.perm_insertionSort (· ≤ ·) _).mem_iff, List.mem_dedup, List.mem_map]

theorem mem_initialComparisonRecords {rows : List ExpRow} {results : List InitSimRow}
    {energies : List ℚ} {r : InitRecord}
    (hr : r ∈ initialComparisonRecords rows results energies) :
    ∃ e, e ∈ energies ∧ r.Energy_MeV = e ∧
      r.k_s_experimental =
        listMin ((rows.filter (fun x => decide (x.energy = e))).map (fun x => x.ks)) ∧
      ∃ s rest, results.filter (fun x => decide (x.E_MeV_u = e)) = s :: rest ∧
        r.k_s_IonTracks = s.ks ∧
        r.difference = s.ks - r.k_s_experimental ∧
        r.relative_error_pct = 100 * (s.ks - r.k_s_experimental) / r.k_s_experimental := by
  rcases List.mem_filterMap.mp hr with ⟨e, he, hbody⟩
  refine ⟨e, he, ?_⟩
  revert hbody
  cases hfil : results.filter (fun x => decide (x.E_MeV_u = e)) with
  | nil => intro hbody; simp at hbody
  | cons s rest =>
    intro hbody
    simp only [Option.some_inj] at hbody
    subst hbody
    exact ⟨rfl, rfl, s, rest, rfl, rfl, rfl, rfl⟩

theorem nanErrorsFor_eq_nil {df : DataFrame} {cols : List String} :
    nanErrorsFor df cols = [] ↔ ∀ c ∈ cols, nanCount df c = 0 := by
  rw [nanErrorsFor, List.filterMap_eq_nil_iff]
  constructor
  · intro h c hc
    have := h c hc
    by_contra hne
    rw [if_pos (Nat.pos_of_ne_zero hne)] at this
    exact Option.some_ne_none _ this
  · intro h c hc
    simp [h c hc]

theorem mem_nanErrorsFor {df : DataFrame} {cols : List String} {c : String}
    (hc : c ∈ cols) (hn : 0 < nanCount df c) :
    nanValuesMsg c (nanCount df c) ∈ nanErrorsFor df cols := by
  rw [nanErrorsFor, List.mem_filterMap]
  exact ⟨c, hc, by rw [if_pos hn]⟩

theorem nonPosErrors_eq_nil {df : DataFrame} {c : String} :
    nonPosErrors df c = [] ↔ (colNumeric df c = true ∧ anyNonPos df c = false) := by
  rw [nonPosErrors]
  cases h : colNumeric df c <;> simp [h]

theorem negErrors_eq_nil {df : DataFrame} {c : String} :
    negErrors df c = [] ↔ (colNumeric df c = true ∧ anyNeg df c = false) := by
  rw [negErrors]
  cases h : colNumeric df c <;> simp [h]

theorem validate_missing_branch {df : DataFrame} {e k d : String}
    (h : ([e, k, d].filter (fun c => !(df.hasCol c))) ≠ []) :
    validateExperimentalData df e k d =
      (false, [missingColumnsMsg ([e, k, d].filter (fun c => !(df.hasCol c)))]) := by
  rw [validateExperimentalData]
  simp only [List.isEmpty_iff, if_neg h]

theorem validate_empty_branch {df : DataFrame} {e k d : String}
    (hm : ([e, k, d].filter (fun c => !(df.hasCol c))) = [])
    (hr : df.rows.length = 0) :
    validateExperimentalData df e k d = (false, ["DataFrame is empty"]) := by
  rw [validateExperimentalData]
  simp only [List.isEmpty_iff, if_pos hm, if_pos hr]

theorem validate_main_branch {df : DataFrame} {e k d : String}
    (hm : ([e, k, d].filter (fun c => !(df.hasCol c))) = [])
    (hr : df.rows.length ≠ 0) :
    validateExperimentalData df e k d =
      ((nanErrorsFor df [e, k, d] ++ nonPosErrors df e ++ nonPosErrors df k
          ++ negErrors df d).isEmpty,
        nanErrorsFor df [e, k, d] ++ nonPosErrors df e ++ nonPosErrors df k
          ++ negErrors df d) := by
  rw [validateExperimentalData]
  simp only [List.isEmpty_iff, if_pos hm, if_neg hr]

theorem validate_true_parts {df : DataFrame} {e k d : String}
    (h : (validateExperimentalData df e k d).1 = true) :
    ([e, k, d].filter (fun c => !(df.hasCol c))) = [] ∧ df.rows.length ≠ 0 ∧
      nanErrorsFor df [e, k, d] = [] ∧ nonPosErrors df e = [] ∧
      nonPosErrors df k = [] ∧ negErrors df d = [] := by
  by_cases hm : ([e, k, d].filter (fun c => !(df.hasCol c))) = []
  · by_cases hr : df.rows.length = 0
    · rw [validate_empty_branch hm hr] at h; simp at h
    · rw [validate_main_branch hm hr] at h
      simp only [List.isEmpty_iff] at h
      rcases List.append_eq_nil.mp h with ⟨h1, h4⟩
      rcases List.append_eq_nil.mp h1 with ⟨h2, h3⟩
      rcases List.append_eq_nil.mp h2 with ⟨h5, h6⟩
      exact ⟨hm, hr, h5, h6, h3, h4⟩
  · rw [validate_missing_branch hm] at h; simp at h

theorem validate_true_hasCol {df : DataFrame} {e k d : String}
    (h : (validateExperimentalData df e k d).1 = true) :
    df.hasCol e = true ∧ df.hasCol k = true ∧ df.hasCol d = true := by
  have hm := (validate_true_parts h).1
  rw [List.filter_eq_nil_iff] at hm
  refine ⟨?_, ?_, ?_⟩ <;>
    [have := hm e (by simp); have := hm k (by simp); have := hm d (by simp)] <;>
    simpa using this

theorem anyNonPos_false_pos {df : DataFrame} {c : String}
    (h : anyNonPos df c = false) {v : ℚ} (hv : some v ∈ colValues df c) : 0 < v := by
  rw [anyNonPos, List.any_eq_false] at h
  have := h _ hv
  rw [isNonPosCell] at this
  simp only [decide_eq_true_eq] at this
  exact lt_of_not_le (fun hle => this (by simpa using hle))

theorem runInitialCore_exRows :
    runInitialCore exSimI exRows = .ok (exResults, [exInitRecord]) := by
  norm_num [runInitialCore, exSimI, exRows, exResults, exInitRecord,
    initialEnergies, initialComparisonRecords, listMin,
    List.dedup_cons_of_mem, List.insertionSort, List.orderedInsert,
    List.filterMap_cons, List.filter_cons, List.isEmpty_iff]

theorem runContinuousCore_exRows :
    runContinuousCore exSimC (some 100) 0 exContRows = .ok (exEntries, exPreClean, exClean) := by
  norm_num [runContinuousCore, exSimC, exContRows, exEntries, exPreClean, exClean,
    baseSeed, contLoop, contStep, buildContComparison, mkContRecord,
    List.filter_cons, List.isEmpty_iff]

/-- C1: the claim says a continuous-beam run in which every per-row
stochastic simulation raises must abort with an error.  The code does not:
because each failed row appends a NaN placeholder to
`continuous_results_list`, the zero-success check is unreachable for a
non-empty dataset, and a one-row dataset whose only simulation raises
completes without error, yielding an empty clean comparison table. -/
theorem continuous_allfail_completes_without_error :
    runContinuousCore (fun _ _ _ => none) (some 5) 0 [⟨10, 9/10, 1, 60⟩] =
      .ok ([⟨none, 10⟩],
        [{ row := ⟨10, 9/10, 1, 60⟩, ks_IonTracks := none, difference := none,
           relative_error_pct := none, absolute_error := none }], []) := by
  rfl

/-- C2 counterexample: on `exRows` the row with the minimum dose rate has
`k_s = 19/20`, but the comparator's reference value is the group minimum
`k_s = 4/5`, so "the k_s value of the experimental row with the minimum dose
rate" is not the value the code selects. -/
theorem initial_reference_counterexample :
    (match runInitialCore exSimI exRows with
     | .ok p => p.2.map (fun r => r.k_s_experimental)
     | .error _ => []) = [4/5] ∧
    ksAtMinDoseRate exRows = some (19/20) ∧
    ((4 : ℚ)/5) ≠ 19/20 := by
  refine ⟨?_, ?_, by norm_num⟩
  · rw [runInitialCore_exRows]
    norm_num [exInitRecord]
  · norm_num [ksAtMinDoseRate, rowAtMinDoseRate, exRows]

/-- C2 (amended): for every record produced by the initial-recombination
comparator, the experimental reference value is the minimum `k_s` among the
experimental rows of that record's energy group (which coincides with the
minimum-dose-rate row's `k_s` only when that row attains the group minimum). -/
theorem initial_reference_is_group_min_ks
    (simI : ℚ → Option InitSimRow) (rows : List ExpRow)
    (res : List InitSimRow) (recs : List InitRecord)
    (hok : runInitialCore simI rows = .ok (res, recs)) :
    ∀ r ∈ recs, r.k_s_experimental =
      listMin ((rows.filter (fun x => decide (x.energy = r.Energy_MeV))).map
        (fun x => x.ks)) := by
  simp only [runInitialCore] at hok
  split at hok
  · exact absurd hok (by simp)
  · simp only [Except.ok.injEq, Prod.mk.injEq] at hok
    obtain ⟨h1, h2⟩ := hok
    intro r hr
    rw [← h2] at hr
    rcases mem_initialComparisonRecords hr with ⟨e, _, hE, hks, _⟩
    rw [hE]
    exact hks

/-- Witness for the amended C2 at the concrete scenario `exRows`/`exSimI`. -/
theorem initial_reference_is_group_min_ks_witness :
    exInitRecord.k_s_experimental =
      listMin ((exRows.filter (fun x => decide (x.energy = exInitRecord.Energy_MeV))).map
        (fun x => x.ks)) :=
  initial_reference_is_group_min_ks exSimI exRows exResults [exInitRecord]
    runInitialCore_exRows exInitRecord (by simp)

theorem contStep_snd_ks (simC : ℤ → ℚ → ℚ → Option ContSimRow) (seed : ℤ)
    (idx : Nat) (r : ExpRow) :
    ((contStep simC seed idx r).2).ks_IonTracks =
      (simC (seed + (idx : ℤ)) r.energy r.doseRateMin).map (fun s => s.ks_IonTracks) := by
  rw [contStep]
  cases simC (seed + (idx : ℤ)) r.energy r.doseRateMin <;> rfl

/-- C3: for every dataset and failure pattern, the pre-clean continuous-beam
comparison table has exactly as many rows as the input, in input order: the
record at index `i` copies the experimental row at index `i`, and its
`k_s_IonTracks` is the simulated value of that row's invocation, a NaN
sentinel (`none`) when the invocation raised. -/
theorem continuous_preclean_alignment
    (simC : ℤ → ℚ → ℚ → Option ContSimRow) (cfgSeed : Option ℤ) (draw : ℤ)
    (rows : List ExpRow) (entries : List ContEntry) (preClean clean : List ContRecord)
    (hok : runContinuousCore simC cfgSeed draw rows = .ok (entries, preClean, clean)) :
    preClean.length = rows.length ∧
    ∀ i : Nat, ∀ r, rows[i]? = some r →
      ∃ c, preClean[i]? = some c ∧ c.row = r ∧
        c.ks_IonTracks = (simC (baseSeed cfgSeed draw + (i : ℤ)) r.energy r.doseRateMin).map
          (fun s => s.ks_IonTracks) := by
  simp only [runContinuousCore] at hok
  split at hok
  · exact absurd hok (by simp)
  · simp only [Except.ok.injEq, Prod.mk.injEq] at hok
    obtain ⟨he, hp, hc⟩ := hok
    constructor
    · rw [← hp, buildContComparison, List.length_zipWith, List.length_map,
        contLoop_length, Nat.min_self]
    · intro i r hri
      refine ⟨mkContRecord r (contStep simC (baseSeed cfgSeed draw) i r).2, ?_, rfl, ?_⟩
      · rw [← hp, buildContComparison_get, hri, List.getElem?_map, contLoop_get, hri]
        simp
      · simp only [mkContRecord]
        rw [contStep_snd_ks]

/-- Witness for C3 at the concrete all-rows scenario with a failure at
index 1: the record at index 1 carries the experimental row at index 1 and a
NaN sentinel for the simulated value. -/
theorem continuous_preclean_alignment_witness :
    exPreClean.length = exContRows.length ∧
    (∃ c, exPreClean[1]? = some c ∧ c.row = (⟨10, 4/5, 2, 120⟩ : ExpRow) ∧
      c.ks_IonTracks = (exSimC (baseSeed (some 100) 0 + ((1 : Nat) : ℤ)) 10 120).map
        (fun s => s.ks_IonTracks)) :=
  ⟨(continuous_preclean_alignment exSimC (some 100) 0 exContRows exEntries
      exPreClean exClean runContinuousCore_exRows).1,
   (continuous_preclean_alignment exSimC (some 100) 0 exContRows exEntries
      exPreClean exClean runContinuousCore_exRows).2 1 ⟨10, 4/5, 2, 120⟩ rfl⟩

/-- C4: the base seed is the configured integer when present, otherwise the
freshly drawn integer (whose contract is the range `[1, 10_000_000]`); and
the stochastic call for row `i` is made with seed `base_seed + i`, the row's
energy and the row's per-minute dose rate, one call per row in original
order, regardless of which rows fail. -/
theorem continuous_seed_policy
    (simC : ℤ → ℚ → ℚ → Option ContSimRow) (cfgSeed : Option ℤ) (draw : ℤ)
    (rows : List ExpRow) (h1 : 1 ≤ draw) (h2 : draw ≤ 10000000) :
    (∀ s, cfgSeed = some s → baseSeed cfgSeed draw = s) ∧
    (cfgSeed = none → baseSeed cfgSeed draw = draw ∧ 1 ≤ baseSeed cfgSeed draw ∧
      baseSeed cfgSeed draw ≤ 10000000) ∧
    (contCalls simC cfgSeed draw rows).length = rows.length ∧
    (∀ i : Nat, ∀ c, (contCalls simC cfgSeed draw rows)[i]? = some c →
      c.myseed = baseSeed cfgSeed draw + (i : ℤ) ∧
      ∃ r, rows[i]? = some r ∧ c.E_MeV_u = r.energy ∧
        c.doserate_Gy_min = r.doseRateMin) := by
  refine ⟨?_, ?_, ?_, ?_⟩
  · intro s hs; rw [hs]; rfl
  · intro hn; rw [hn]; exact ⟨rfl, h1, h2⟩
  · rw [contCalls, List.length_map, contLoop_length]
  · intro i c hc
    rw [contCalls, List.getElem?_map, contLoop_get] at hc
    cases hri : rows[i]? with
    | none => rw [hri] at hc; simp at hc
    | some r =>
      rw [hri] at hc
      simp only [Option.map_some', Option.some_inj] at hc
      rw [← hc]
      exact ⟨by simp [contStep], r, rfl, rfl, rfl⟩

/-- Witness for C4 at the concrete continuous scenario: three calls, and the
call at index 2 uses seed `42 + 2` with row 2's energy and dose rate. -/
theorem continuous_seed_policy_witness :
    (contCalls exSimC none 42 exContRows).length = exContRows.length ∧
    ((⟨44, 20, 60⟩ : ContCall).myseed = baseSeed none 42 + ((2 : Nat) : ℤ) ∧
      ∃ r, exContRows[2]? = some r ∧ (⟨44, 20, 60⟩ : ContCall).E_MeV_u = r.energy ∧
        (⟨44, 20, 60⟩ : ContCall).doserate_Gy_min = r.doseRateMin) :=
  ⟨(continuous_seed_policy exSimC none 42 exContRows (by norm_num) (by norm_num)).2.2.1,
   (continuous_seed_policy exSimC none 42 exContRows (by norm_num) (by norm_num)).2.2.2 2
     ⟨44, 20, 60⟩ (by norm_num [contCalls, contLoop, contStep, baseSeed, exContRows, exSimC])⟩

theorem findColumn_eq_find (df : DataFrame) (ns : List String) :
    findColumn df ns = ns.find? (fun n => df.hasCol n) := by
  induction ns with
  | nil => rfl
  | cons n rest ih => cases h : df.hasCol n <;> simp [findColumn, List.find?_cons, h, ih]

theorem load_ok_inv {df : DataFrame} {o1 o2 o3 : Option String} {out : DataFrame}
    (h : loadExperimentalData df o1 o2 o3 = .ok out) :
    ∃ e k d, resolveEnergyColumn df o1 = .ok e ∧ resolveKsColumn df o2 = .ok k ∧
      resolveDoseRateColumn df o3 = .ok d ∧
      (validateExperimentalData df e k d).1 = true := by
  simp only [loadExperimentalData, bind, Except.bind] at h
  cases he : resolveEnergyColumn df o1 with
  | error s => rw [he] at h; simp at h
  | ok e =>
    rw [he] at h
    cases hk : resolveKsColumn df o2 with
    | error s => rw [hk] at h; simp at h
    | ok k =>
      rw [hk] at h
      cases hd : resolveDoseRateColumn df o3 with
      | error s => rw [hd] at h; simp at h
      | ok d =>
        rw [hd] at h
        by_cases hv : (validateExperimentalData df e k d).1 = true
        · exact ⟨e, k, d, rfl, rfl, rfl, hv⟩
        · simp [hv] at h

theorem validate_fst_false_of_empty {df : DataFrame} {e k d : String}
    (h : df.rows = []) : (validateExperimentalData df e k d).1 = false := by
  by_cases hm : ([e, k, d].filter (fun c => !(df.hasCol c))) = []
  · rw [validate_empty_branch hm (by rw [h]; rfl)]
  · rw [validate_missing_branch hm]

theorem mem_nonPosErrors_numeric {df : DataFrame} {c : String}
    (h : colNumeric df c = false) : mustBeNumericMsg c ∈ nonPosErrors df c := by
  rw [nonPosErrors, if_neg (by simp [h])]
  exact List.mem_singleton.mpr rfl

theorem mem_nonPosErrors_nonpos {df : DataFrame} {c : String}
    (h : colNumeric df c = true) (h2 : anyNonPos df c = true) :
    nonPositiveMsg c ∈ nonPosErrors df c := by
  rw [nonPosErrors, if_pos h, if_pos h2]
  exact List.mem_singleton.mpr rfl

theorem mem_negErrors_numeric {df : DataFrame} {c : String}
    (h : colNumeric df c = false) : mustBeNumericMsg c ∈ negErrors df c := by
  rw [negErrors, if_neg (by simp [h])]
  exact List.mem_singleton.mpr rfl

theorem mem_negErrors_neg {df : DataFrame} {c : String}
    (h : colNumeric df c = true) (h2 : anyNeg df c = true) :
    negativeMsg c ∈ negErrors df c := by
  rw [negErrors, if_pos h, if_pos h2]
  exact List.mem_singleton.mpr rfl

/-- C5 counterexample: on an empty dataset whose three numeric columns are
all present, none of the claim's enumerated violations is present, so the
claim forces the output `(true, [])`; the code instead short-circuits with
the single message "DataFrame is empty". -/
theorem validate_empty_dataset_counterexample :
    validateExperimentalData emptyTriDF "E" "K" "D" = (false, ["DataFrame is empty"]) ∧
    nanCount emptyTriDF "E" = 0 ∧ nanCount emptyTriDF "K" = 0 ∧
    nanCount emptyTriDF "D" = 0 ∧
    colNumeric emptyTriDF "E" = true ∧ colNumeric emptyTriDF "K" = true ∧
    colNumeric emptyTriDF "D" = true ∧
    anyNonPos emptyTriDF "E" = false ∧ anyNonPos emptyTriDF "K" = false ∧
    anyNeg emptyTriDF "D" = false ∧
    validateExperimentalData emptyTriDF "E" "K" "D" ≠ (true, []) := by
  decide

/-- C5 (amended): if a required column is absent, validation fails with
exactly the missing-columns message and performs no value checks; an empty
dataset with all columns present short-circuits with the single message
"DataFrame is empty"; otherwise validation collects every violation present
(NaN counts, dtype, non-positive energy or k_s, negative dose rate) without
short-circuiting, and the pass flag is true iff no violation was found. -/
theorem validate_collects_all_violations (df : DataFrame) (e k d : String) :
    (([e, k, d].filter (fun c => !(df.hasCol c))) ≠ [] →
      validateExperimentalData df e k d =
        (false, [missingColumnsMsg ([e, k, d].filter (fun c => !(df.hasCol c)))])) ∧
    (([e, k, d].filter (fun c => !(df.hasCol c))) = [] → df.rows.length = 0 →
      validateExperimentalData df e k d = (false, ["DataFrame is empty"])) ∧
    (([e, k, d].filter (fun c => !(df.hasCol c))) = [] → df.rows.length ≠ 0 →
      ((validateExperimentalData df e k d).1 = true ↔
        (validateExperimentalData df e k d).2 = []) ∧
      ((validateExperimentalData df e k d).2 = [] ↔
        ((∀ c ∈ [e, k, d], nanCount df c = 0) ∧
         colNumeric df e = true ∧ anyNonPos df e = false ∧
         colNumeric df k = true ∧ anyNonPos df k = false ∧
         colNumeric df d = true ∧ anyNeg df d = false)) ∧
      (∀ c ∈ [e, k, d], 0 < nanCount df c →
        nanValuesMsg c (nanCount df c) ∈ (validateExperimentalData df e k d).2) ∧
      (colNumeric df e = false →
        mustBeNumericMsg e ∈ (validateExperimentalData df e k d).2) ∧
      (colNumeric df e = true → anyNonPos df e = true →
        nonPositiveMsg e ∈ (validateExperimentalData df e k d).2) ∧
      (colNumeric df k = false →
        mustBeNumericMsg k ∈ (validateExperimentalData df e k d).2) ∧
      (colNumeric df k = true → anyNonPos df k = true →
        nonPositiveMsg k ∈ (validateExperimentalData df e k d).2) ∧
      (colNumeric df d = false →
        mustBeNumericMsg d ∈ (validateExperimentalData df e k d).2) ∧
      (colNumeric df d = true → anyNeg df d = true →
        negativeMsg d ∈ (validateExperimentalData df e k d).2)) := by
  refine ⟨fun hm => validate_missing_branch hm, fun hm hr => validate_empty_branch hm hr,
    fun hm hr => ?_⟩
  rw [validate_main_branch hm hr]
  simp only [List.isEmpty_iff, List.append_eq_nil, List.mem_append]
  refine ⟨trivial, ?_, ?_, ?_, ?_, ?_, ?_, ?_, ?_⟩
  · rw [nanErrorsFor_eq_nil, nonPosErrors_eq_nil, nonPosErrors_eq_nil, negErrors_eq_nil]
    tauto
  · intro c hc hn
    exact Or.inl (Or.inl (Or.inl (mem_nanErrorsFor hc hn)))
  · intro h; exact Or.inl (Or.inl (Or.inr (mem_nonPosErrors_numeric h)))
  · intro h h2; exact Or.inl (Or.inl (Or.inr (mem_nonPosErrors_nonpos h h2)))
  · intro h; exact Or.inl (Or.inr (mem_nonPosErrors_numeric h))
  · intro h h2; exact Or.inl (Or.inr (mem_nonPosErrors_nonpos h h2))
  · intro h; exact Or.inr (mem_negErrors_numeric h)
  · intro h h2; exact Or.inr (mem_negErrors_neg h h2)

/-- Witness for the amended C5 on `mixedBadDF`: a non-numeric energy column
and a negative dose-rate value yield both messages together (plus the NaN
message for the energy column). -/
theorem validate_collects_all_violations_witness :
    mustBeNumericMsg "E" ∈ (validateExperimentalData mixedBadDF "E" "K" "D").2 ∧
    negativeMsg "D" ∈ (validateExperimentalData mixedBadDF "E" "K" "D").2 ∧
    nanValuesMsg "E" (nanCount mixedBadDF "E") ∈
      (validateExperimentalData mixedBadDF "E" "K" "D").2 :=
  ⟨((validate_collects_all_violations mixedBadDF "E" "K" "D").2.2 (by decide)
      (by decide)).2.2.2.1 (by decide),
   ((validate_collects_all_violations mixedBadDF "E" "K" "D").2.2 (by decide)
      (by decide)).2.2.2.2.2.2.2.2 (by decide) (by decide),
   ((validate_collects_all_violations mixedBadDF "E" "K" "D").2.2 (by decide)
      (by decide)).2.2.1 "E" (by decide) (by decide)⟩

/-- C9: validation of an empty dataset whose three resolved columns are all
present short-circuits exactly like a missing column — failure with the
single message "DataFrame is empty" and no value checks — and loading an
empty dataset never succeeds, whatever the column configuration. -/
theorem empty_dataset_shortcircuit :
    (∀ (df : DataFrame) (e k d : String), df.hasCol e = true → df.hasCol k = true →
      df.hasCol d = true → df.rows = [] →
      validateExperimentalData df e k d = (false, ["DataFrame is empty"])) ∧
    (∀ (df : DataFrame) (o1 o2 o3 : Option String) (out : DataFrame), df.rows = [] →
      loadExperimentalData df o1 o2 o3 ≠ .ok out) := by
  constructor
  · intro df e k d he hk hd hr
    have hm : ([e, k, d].filter (fun c => !(df.hasCol c))) = [] := by
      rw [List.filter_eq_nil_iff]
      intro c hc
      simp only [List.mem_cons, List.not_mem_nil, or_false] at hc
      rcases hc with rfl | rfl | rfl <;> simp [he, hk, hd]
    exact validate_empty_branch hm (by rw [hr]; rfl)
  · intro df o1 o2 o3 out hr h
    rcases load_ok_inv h with ⟨e, k, d, _, _, _, hv⟩
    rw [validate_fst_false_of_empty hr] at hv
    cases hv

/-- Witness for C9 at the concrete empty dataset `emptyTriDF`. -/
theorem empty_dataset_shortcircuit_witness :
    validateExperimentalData emptyTriDF "E" "K" "D" = (false, ["DataFrame is empty"]) ∧
    loadExperimentalData emptyTriDF (some "E") (some "K") (some "D") ≠ .ok emptyTriDF :=
  ⟨empty_dataset_shortcircuit.1 emptyTriDF "E" "K" "D" (by decide) (by decide)
      (by decide) rfl,
   empty_dataset_shortcircuit.2 emptyTriDF (some "E") (some "K") (some "D") emptyTriDF rfl⟩

/-- C6: column resolution returns the first name in the priority list that
is a column of the dataframe (`none` otherwise); an explicitly configured
column name is used verbatim, bypassing the alias tables, and loading fails
whenever an explicit column (for any of the three roles) is absent;
dose-rate auto-detection tries the air alias group, falls back to the water
alias group, and otherwise fails with an error naming all attempted aliases. -/
theorem column_resolution_policy :
    (∀ (df : DataFrame) (ns : List String),
      findColumn df ns = ns.find? (fun n => df.hasCol n)) ∧
    (∀ (df : DataFrame) (c : String), resolveEnergyColumn df (some c) = .ok c) ∧
    (∀ (df : DataFrame) (c : String), resolveKsColumn df (some c) = .ok c) ∧
    (∀ (df : DataFrame) (c : String), resolveDoseRateColumn df (some c) = .ok c) ∧
    (∀ (df : DataFrame) (c : String) (o2 o3 : Option String) (out : DataFrame),
      df.hasCol c = false → loadExperimentalData df (some c) o2 o3 ≠ .ok out) ∧
    (∀ (df : DataFrame) (c : String) (o1 o3 : Option String) (out : DataFrame),
      df.hasCol c = false → loadExperimentalData df o1 (some c) o3 ≠ .ok out) ∧
    (∀ (df : DataFrame) (c : String) (o1 o2 : Option String) (out : DataFrame),
      df.hasCol c = false → loadExperimentalData df o1 o2 (some c) ≠ .ok out) ∧
    (∀ (df : DataFrame) (c : String), findColumn df doseRateAirAliases = some c →
      resolveDoseRateColumn df none = .ok c) ∧
    (∀ (df : DataFrame) (c : String), findColumn df doseRateAirAliases = none →
      findColumn df doseRateWaterAliases = some c →
      resolveDoseRateColumn df none = .ok c) ∧
    (∀ df : DataFrame, findColumn df doseRateAirAliases = none →
      findColumn df doseRateWaterAliases = none →
      resolveDoseRateColumn df none =
        .error ("Could not find dose rate column. Tried: "
          ++ aliasListMsg (doseRateAirAliases ++ doseRateWaterAliases))) := by
  refine ⟨findColumn_eq_find, fun _ _ => rfl, fun _ _ => rfl, fun _ _ => rfl,
    ?_, ?_, ?_, ?_, ?_, ?_⟩
  · intro df c o2 o3 out hfalse h
    rcases load_ok_inv h with ⟨e, k, d, he, _, _, hv⟩
    simp only [resolveEnergyColumn, Except.ok.injEq] at he
    rw [← he] at hv
    rw [(validate_true_hasCol hv).1] at hfalse
    cases hfalse
  · intro df c o1 o3 out hfalse h
    rcases load_ok_inv h with ⟨e, k, d, _, hk, _, hv⟩
    simp only [resolveKsColumn, Except.ok.injEq] at hk
    rw [← hk] at hv
    rw [(validate_true_hasCol hv).2.1] at hfalse
    cases hfalse
  · intro df c o1 o2 out hfalse h
    rcases load_ok_inv h with ⟨e, k, d, _, _, hd, hv⟩
    simp only [resolveDoseRateColumn, Except.ok.injEq] at hd
    rw [← hd] at hv
    rw [(validate_true_hasCol hv).2.2] at hfalse
    cases hfalse
  · intro df c hair
    rw [resolveDoseRateColumn, hair]
  · intro df c hair hwater
    rw [resolveDoseRateColumn, hair, hwater]
  · intro df hair hwater
    rw [resolveDoseRateColumn, hair, hwater]

/-- Witness for C6: concrete resolutions on `mixedBadDF` (columns E, K, D)
and `waterDF` (water alias only). -/
theorem column_resolution_policy_witness :
    findColumn mixedBadDF ["X", "K"] = ["X", "K"].find? (fun n => mixedBadDF.hasCol n) ∧
    resolveEnergyColumn mixedBadDF (some "Q") = .ok "Q" ∧
    loadExperimentalData mixedBadDF (some "Q") (some "K") (some "D") ≠ .ok mixedBadDF ∧
    resolveDoseRateColumn waterDF none = .ok "dose_rate_water" ∧
    resolveDoseRateColumn mixedBadDF none =
      .error ("Could not find dose rate column. Tried: "
        ++ aliasListMsg (doseRateAirAliases ++ doseRateWaterAliases)) :=
  ⟨column_resolution_policy.1 mixedBadDF ["X", "K"],
   column_resolution_policy.2.1 mixedBadDF "Q",
   column_resolution_policy.2.2.2.2.1 mixedBadDF "Q" (some "K") (some "D") mixedBadDF
     (by decide),
   column_resolution_policy.2.2.2.2.2.2.2.2.1 waterDF "dose_rate_water" (by decide)
     (by decide),
   column_resolution_policy.2.2.2.2.2.2.2.2.2 mixedBadDF (by decide) (by decide)⟩

theorem runInitialCore_ok_recs {simI : ℚ → Option InitSimRow} {rows : List ExpRow}
    {res : List InitSimRow} {recs : List InitRecord}
    (hok : runInitialCore simI rows = .ok (res, recs)) :
    res = (initialEnergies rows).filterMap simI ∧
    recs = initialComparisonRecords rows ((initialEnergies rows).filterMap simI)
      (initialEnergies rows) := by
  simp only [runInitialCore] at hok
  split at hok
  · exact absurd hok (by simp)
  · simp only [Except.ok.injEq, Prod.mk.injEq] at hok
    exact ⟨hok.1.symm, hok.2.symm⟩

theorem runContinuousCore_ok_parts {simCo : ℤ → ℚ → ℚ → Option ContSimRow}
    {cfgSeed : Option ℤ} {draw : ℤ} {rows : List ExpRow} {entries : List ContEntry}
    {preClean clean : List ContRecord}
    (hok : runContinuousCore simCo cfgSeed draw rows = .ok (entries, preClean, clean)) :
    entries = (contLoop simCo (baseSeed cfgSeed draw) rows 0).map (fun p => p.2) ∧
    preClean = buildContComparison rows
      ((contLoop simCo (baseSeed cfgSeed draw) rows 0).map (fun p => p.2)) ∧
    clean = (buildContComparison rows
      ((contLoop simCo (baseSeed cfgSeed draw) rows 0).map (fun p => p.2))).filter
        (fun c => c.ks_IonTracks.isSome) := by
  simp only [runContinuousCore] at hok
  split at hok
  · exact absurd hok (by simp)
  · simp only [Except.ok.injEq, Prod.mk.injEq] at hok
    exact ⟨hok.1.symm, hok.2.1.symm, hok.2.2.symm⟩

/-- C7: on every record of the initial comparison table,
`difference = simulated - experimental` and
`relative_error_% = 100 * (simulated - experimental) / experimental` hold
exactly and `experimental + difference` reconstructs the simulated value;
on every non-sentinel record of the continuous comparison table the same
identities hold together with `absolute_error = |difference|`. -/
theorem comparison_record_algebra :
    (∀ (simI : ℚ → Option InitSimRow) (rows : List ExpRow) res recs,
      runInitialCore simI rows = .ok (res, recs) →
      ∀ r ∈ recs, r.difference = r.k_s_IonTracks - r.k_s_experimental ∧
        r.relative_error_pct =
          100 * (r.k_s_IonTracks - r.k_s_experimental) / r.k_s_experimental ∧
        r.k_s_experimental + r.difference = r.k_s_IonTracks) ∧
    (∀ (simCo : ℤ → ℚ → ℚ → Option ContSimRow) (cfgSeed : Option ℤ) (draw : ℤ)
      (rows : List ExpRow) entries preClean clean,
      runContinuousCore simCo cfgSeed draw rows = .ok (entries, preClean, clean) →
      ∀ c ∈ preClean, ∀ v : ℚ, c.ks_IonTracks = some v →
        c.difference = some (v - c.row.ks) ∧
        c.relative_error_pct = some (100 * (v - c.row.ks) / c.row.ks) ∧
        c.absolute_error = some |v - c.row.ks| ∧
        c.row.ks + (v - c.row.ks) = v) := by
  constructor
  · intro simI rows res recs hok r hr
    rw [(runInitialCore_ok_recs hok).2] at hr
    rcases mem_initialComparisonRecords hr with ⟨e, _, _, _, s, rest, _, hI, hdiff, hrel⟩
    refine ⟨?_, ?_, ?_⟩
    · rw [hdiff, hI]
    · rw [hrel, hI]
    · rw [hdiff, hI]; ring
  · intro simCo cfgSeed draw rows entries preClean clean hok c hc v hv
    rw [(runContinuousCore_ok_parts hok).2.1] at hc
    rcases mem_buildContComparison hc with ⟨r, en, _, _, rfl⟩
    simp only [mkContRecord] at hv ⊢
    rw [hv, Option.map_some', Option.map_some', Option.map_some']
    refine ⟨rfl, rfl, rfl, by ring⟩

/-- Witness for C7: the concrete initial record of `exRows`/`exSimI` and the
concrete head record of the continuous scenario. -/
theorem comparison_record_algebra_witness :
    (exInitRecord.difference = exInitRecord.k_s_IonTracks - exInitRecord.k_s_experimental ∧
     exInitRecord.relative_error_pct =
       100 * (exInitRecord.k_s_IonTracks - exInitRecord.k_s_experimental) /
         exInitRecord.k_s_experimental ∧
     exInitRecord.k_s_experimental + exInitRecord.difference = exInitRecord.k_s_IonTracks) ∧
    ((mkContRecord ⟨10, 9/10, 1, 60⟩ ⟨some (1/10), 10⟩).difference =
       some (1/10 - (mkContRecord ⟨10, 9/10, 1, 60⟩ ⟨some (1/10), 10⟩).row.ks) ∧
     (mkContRecord ⟨10, 9/10, 1, 60⟩ ⟨some (1/10), 10⟩).relative_error_pct =
       some (100 * (1/10 - (mkContRecord ⟨10, 9/10, 1, 60⟩ ⟨some (1/10), 10⟩).row.ks) /
         (mkContRecord ⟨10, 9/10, 1, 60⟩ ⟨some (1/10), 10⟩).row.ks) ∧
     (mkContRecord ⟨10, 9/10, 1, 60⟩ ⟨some (1/10), 10⟩).absolute_error =
       some |1/10 - (mkContRecord ⟨10, 9/10, 1, 60⟩ ⟨some (1/10), 10⟩).row.ks| ∧
     (mkContRecord ⟨10, 9/10, 1, 60⟩ ⟨some (1/10), 10⟩).row.ks +
       (1/10 - (mkContRecord ⟨10, 9/10, 1, 60⟩ ⟨some (1/10), 10⟩).row.ks) = 1/10) :=
  ⟨comparison_record_algebra.1 exSimI exRows exResults [exInitRecord]
     runInitialCore_exRows exInitRecord (by simp),
   comparison_record_algebra.2 exSimC (some 100) 0 exContRows exEntries exPreClean exClean
     runContinuousCore_exRows (mkContRecord ⟨10, 9/10, 1, 60⟩ ⟨some (1/10), 10⟩)
     (by simp [exPreClean, exContRows, exEntries, buildContComparison]) (1/10) rfl⟩

theorem runInitialRecombination_ok {simI : ℚ → Option InitSimRow} {rows : List ExpRow}
    {s s₁ : RunnerState} (h : runInitialRecombination simI rows s = .ok s₁) :
    ∃ res recs, runInitialCore simI rows = .ok (res, recs) ∧
      s₁ = { s with initial_results := some res, comparison_initial := some recs } := by
  rw [runInitialRecombination] at h
  cases hcore : runInitialCore simI rows with
  | error e => rw [hcore] at h; simp at h
  | ok p =>
    rw [hcore] at h
    cases p with
    | mk res recs =>
      simp only [Except.ok.injEq] at h
      exact ⟨res, recs, rfl, h.symm⟩

theorem runContinuousBeam_ok {simCo : ℤ → ℚ → ℚ → Option ContSimRow}
    {cfgSeed : Option ℤ} {draw : ℤ} {rows : List ExpRow} {s s₂ : RunnerState}
    (h : runContinuousBeam simCo cfgSeed draw rows s = .ok s₂) :
    ∃ res preClean clean,
      runContinuousCore simCo cfgSeed draw rows = .ok (res, preClean, clean) ∧
      s₂ = { s with continuous_results := some res, comparison_continuous := some clean } := by
  rw [runContinuousBeam] at h
  cases hcore : runContinuousCore simCo cfgSeed draw rows with
  | error e => rw [hcore] at h; simp at h
  | ok p =>
    rw [hcore] at h
    cases p with
    | mk res q =>
      cases q with
      | mk preClean clean =>
        simp only [Except.ok.injEq] at h
        exact ⟨res, preClean, clean, rfl, h.symm⟩

theorem mem_saveResults_initial (t : RunnerState) :
    "comparison_initial.csv" ∈ saveResults t ↔
      ∃ tab, t.comparison_initial = some tab ∧ tab ≠ [] := by
  rw [saveResults]
  cases hci : t.comparison_initial with
  | none =>
    cases hcc : t.comparison_continuous with
    | none => simp
    | some tb => by_cases hl : 0 < tb.length <;> simp [hl]
  | some ti =>
    cases hcc : t.comparison_continuous with
    | none =>
      by_cases hi : 0 < ti.length <;> simp [hi]
      · exact List.ne_nil_of_length_pos hi
      · exact List.length_eq_zero.mp (Nat.eq_zero_of_not_pos hi)
    | some tb =>
      by_cases hi : 0 < ti.length <;> by_cases hl : 0 < tb.length <;> simp [hi, hl]
      · exact List.ne_nil_of_length_pos hi
      · exact List.ne_nil_of_length_pos hi
      · exact List.length_eq_zero.mp (Nat.eq_zero_of_not_pos hi)
      · exact List.length_eq_zero.mp (Nat.eq_zero_of_not_pos hi)

theorem mem_saveResults_continuous (t : RunnerState) (nm : String)
    (hnm : nm = "comparison_continuous.csv" ∨ nm = "comparison_continuous_clean.csv") :
    nm ∈ saveResults t ↔ ∃ tab, t.comparison_continuous = some tab ∧ tab ≠ [] := by
  rw [saveResults]
  rcases hnm with rfl | rfl <;>
  · cases hcc : t.comparison_continuous with
    | none =>
      cases hci : t.comparison_initial with
      | none => simp
      | some ti => by_cases hi : 0 < ti.length <;> simp [hi]
    | some tb =>
      cases hci : t.comparison_initial with
      | none =>
        by_cases hl : 0 < tb.length <;> simp [hl]
        · exact List.ne_nil_of_length_pos hl
        · exact List.length_eq_zero.mp (Nat.eq_zero_of_not_pos hl)
      | some ti =>
        by_cases hi : 0 < ti.length <;> by_cases hl : 0 < tb.length <;> simp [hi, hl]
        · exact List.ne_nil_of_length_pos hl
        · exact List.length_eq_zero.mp (Nat.eq_zero_of_not_pos hl)
        · exact List.ne_nil_of_length_pos hl
        · exact List.length_eq_zero.mp (Nat.eq_zero_of_not_pos hl)

/-- C8: re-invoking a phase stores a result depending only on the dataset
and oracle (so it replaces, rather than accumulates onto, any prior result);
running one phase leaves the other phase's stored results untouched; and
saving is defined for every state — a phase whose stored comparison is
absent or empty is simply skipped, and with neither phase run nothing is
written. -/
theorem runner_phase_frame :
    (∀ (simI : ℚ → Option InitSimRow) (rows : List ExpRow) (s s₁ : RunnerState),
      runInitialRecombination simI rows s = .ok s₁ →
      s₁.comparison_continuous = s.comparison_continuous ∧
      s₁.continuous_results = s.continuous_results ∧
      ∃ res recs, runInitialCore simI rows = .ok (res, recs) ∧
        s₁.initial_results = some res ∧ s₁.comparison_initial = some recs) ∧
    (∀ (simI : ℚ → Option InitSimRow) (rows : List ExpRow) (s s' s₁ s₁' : RunnerState),
      runInitialRecombination simI rows s = .ok s₁ →
      runInitialRecombination simI rows s' = .ok s₁' →
      s₁.comparison_initial = s₁'.comparison_initial) ∧
    (∀ (simCo : ℤ → ℚ → ℚ → Option ContSimRow) (cfgSeed : Option ℤ) (draw : ℤ)
      (rows : List ExpRow) (s s₂ : RunnerState),
      runContinuousBeam simCo cfgSeed draw rows s = .ok s₂ →
      s₂.comparison_initial = s.comparison_initial ∧
      s₂.initial_results = s.initial_results ∧
      ∃ res preClean clean,
        runContinuousCore simCo cfgSeed draw rows = .ok (res, preClean, clean) ∧
        s₂.continuous_results = some res ∧ s₂.comparison_continuous = some clean) ∧
    (∀ (simCo : ℤ → ℚ → ℚ → Option ContSimRow) (cfgSeed : Option ℤ) (draw : ℤ)
      (rows : List ExpRow) (s s' s₂ s₂' : RunnerState),
      runContinuousBeam simCo cfgSeed draw rows s = .ok s₂ →
      runContinuousBeam simCo cfgSeed draw rows s' = .ok s₂' →
      s₂.comparison_continuous = s₂'.comparison_continuous) ∧
    saveResults ⟨none, none, none, none⟩ = [] ∧
    (∀ t : RunnerState, "comparison_initial.csv" ∈ saveResults t ↔
      ∃ tab, t.comparison_initial = some tab ∧ tab ≠ []) ∧
    (∀ t : RunnerState,
      ("comparison_continuous.csv" ∈ saveResults t ↔
        ∃ tab, t.comparison_continuous = some tab ∧ tab ≠ []) ∧
      ("comparison_continuous_clean.csv" ∈ saveResults t ↔
        ∃ tab, t.comparison_continuous = some tab ∧ tab ≠ [])) := by
  refine ⟨?_, ?_, ?_, ?_, rfl, mem_saveResults_initial, ?_⟩
  · intro simI rows s s₁ h
    rcases runInitialRecombination_ok h with ⟨res, recs, hcore, rfl⟩
    exact ⟨rfl, rfl, res, recs, hcore, rfl, rfl⟩
  · intro simI rows s s' s₁ s₁' h h'
    rcases runInitialRecombination_ok h with ⟨res, recs, hcore, rfl⟩
    rcases runInitialRecombination_ok h' with ⟨res', recs', hcore', rfl⟩
    rw [hcore] at hcore'
    simp only [Except.ok.injEq, Prod.mk.injEq] at hcore'
    simp [hcore'.2]
  · intro simCo cfgSeed draw rows s s₂ h
    rcases runContinuousBeam_ok h with ⟨res, preClean, clean, hcore, rfl⟩
    exact ⟨rfl, rfl, res, preClean, clean, hcore, rfl, rfl⟩
  · intro simCo cfgSeed draw rows s s' s₂ s₂' h h'
    rcases runContinuousBeam_ok h with ⟨res, preClean, clean, hcore, rfl⟩
    rcases runContinuousBeam_ok h' with ⟨res', preClean', clean', hcore', rfl⟩
    rw [hcore] at hcore'
    simp only [Except.ok.injEq, Prod.mk.injEq] at hcore'
    simp [hcore'.2.2]
  · intro t
    exact ⟨mem_saveResults_continuous t _ (Or.inl rfl),
      mem_saveResults_continuous t _ (Or.inr rfl)⟩

/-- Witness for C8: running the initial phase from the fresh state leaves the
continuous slot empty, and saving the fresh state writes nothing. -/
theorem runner_phase_frame_witness :
    ((⟨some exResults, none, some [exInitRecord], none⟩ : RunnerState).comparison_continuous =
      (⟨none, none, none, none⟩ : RunnerState).comparison_continuous ∧
     (⟨some exResults, none, some [exInitRecord], none⟩ : RunnerState).continuous_results =
      (⟨none, none, none, none⟩ : RunnerState).continuous_results ∧
     ∃ res recs, runInitialCore exSimI exRows = .ok (res, recs) ∧
       (⟨some exResults, none, some [exInitRecord], none⟩ : RunnerState).initial_results =
         some res ∧
       (⟨some exResults, none, some [exInitRecord], none⟩ : RunnerState).comparison_initial =
         some recs) ∧
    saveResults ⟨none, none, none, none⟩ = [] :=
  ⟨runner_phase_frame.1 exSimI exRows ⟨none, none, none, none⟩
     ⟨some exResults, none, some [exInitRecord], none⟩
     (by rw [runInitialRecombination, runInitialCore_exRows]),
   runner_phase_frame.2.2.2.2.1⟩

/-- C10: if validation passed on the dataset (with `k` the resolved k_s
column), every `k_s` value is strictly positive, and consequently every
division by the experimental `k_s` performed by either comparator has a
non-zero denominator. -/
theorem validation_pass_no_div_by_zero
    (df : DataFrame) (e k d : String) (rows : List ExpRow)
    (h : (validateExperimentalData df e k d).1 = true)
    (hmap : rows.map (fun r => some r.ks) = colValues df k) :
    (∀ r ∈ rows, 0 < r.ks) ∧
    (∀ (simI : ℚ → Option InitSimRow) res recs,
      runInitialCore simI rows = .ok (res, recs) →
      ∀ rc ∈ recs, 0 < rc.k_s_experimental ∧ rc.k_s_experimental ≠ 0) ∧
    (∀ (simCo : ℤ → ℚ → ℚ → Option ContSimRow) (cfgSeed : Option ℤ) (draw : ℤ)
      entries preClean clean,
      runContinuousCore simCo cfgSeed draw rows = .ok (entries, preClean, clean) →
      ∀ c ∈ preClean, 0 < c.row.ks ∧ c.row.ks ≠ 0) := by
  have hnp : anyNonPos df k = false :=
    (nonPosErrors_eq_nil.mp (validate_true_parts h).2.2.2.2.1).2
  have hpos : ∀ r ∈ rows, 0 < r.ks := by
    intro r hr
    have hm : some r.ks ∈ colValues df k := by
      rw [← hmap]
      exact List.mem_map_of_mem _ hr
    exact anyNonPos_false_pos hnp hm
  refine ⟨hpos, ?_, ?_⟩
  · intro simI res recs hok rc hrc
    rw [(runInitialCore_ok_recs hok).2] at hrc
    rcases mem_initialComparisonRecords hrc with ⟨en, hen, _, hks, _⟩
    rcases mem_initialEnergies.mp hen with ⟨r0, hr0, hr0e⟩
    have hsub : r0 ∈ rows.filter (fun x => decide (x.energy = en)) :=
      List.mem_filter.mpr ⟨hr0, by simp [hr0e]⟩
    have hnonnil : (rows.filter (fun x => decide (x.energy = en))).map (fun x => x.ks) ≠ [] := by
      intro hnil
      rw [List.map_eq_nil_iff] at hnil
      rw [hnil] at hsub
      cases hsub
    rcases List.mem_map.mp (listMin_mem hnonnil) with ⟨x, hx, hxeq⟩
    have hgt : 0 < listMin ((rows.filter (fun x => decide (x.energy = en))).map
        (fun x => x.ks)) := hxeq ▸ hpos x (List.mem_of_mem_filter hx)
    rw [hks]
    exact ⟨hgt, ne_of_gt hgt⟩
  · intro simCo cfgSeed draw entries preClean clean hok c hc
    rw [(runContinuousCore_ok_parts hok).2.1] at hc
    rcases mem_buildContComparison hc with ⟨r, en, hrmem, _, rfl⟩
    have hgt := hpos r hrmem
    exact ⟨by simpa [mkContRecord] using hgt, by simp [mkContRecord]; exact ne_of_gt hgt⟩

/-- Witness for C10: `exDF` passes validation and the first row's `k_s` is
positive. -/
theorem validation_pass_no_div_by_zero_witness :
    (0 : ℚ) < (⟨10, 95, 1, 60⟩ : ExpRow).ks :=
  (validation_pass_no_div_by_zero exDF "Energy_MeV" "k_s" "dose_rate_Gy_s" posRows
    (by decide) (by decide)).1 ⟨10, 95, 1, 60⟩ (by decide)

end IonTracks
